import Mathlib

/-!
Shallow embedding of the x402 payment-provider extension
(`packages/coding-agent/examples/extensions/custom-provider-x402`):
environment loading (`src/env.ts`), the permit signer (`src/sign-permit.ts`),
the router-config resolver and reference-counted fetch patcher (`index.ts`),
and — where the module source is not available — the permit cache and the
payment-aware fetch wrapper, modelled from the design document.

Strings are Lean `String`, JS numbers are `Nat`/`Int`, records of environment
variables are association lists, and fallible code returns `Except`/`Option`.
-/

namespace X402

/-- Decidable equality for `Except`, so that concrete runs of the fallible
embeddings can be evaluated in witnesses. -/
instance {ε α : Type} [DecidableEq ε] [DecidableEq α] : DecidableEq (Except ε α) := fun x y =>
  match x, y with
  | .ok a, .ok b =>
    if h : a = b then .isTrue (congrArg Except.ok h)
    else .isFalse fun he => h (Except.ok.inj he)
  | .ok _, .error _ => .isFalse fun he => Except.noConfusion he
  | .error _, .ok _ => .isFalse fun he => Except.noConfusion he
  | .error e, .error f =>
    if h : e = f then .isTrue (congrArg Except.error h)
    else .isFalse fun he => h (Except.error.inj he)

/-! ## Character classes and regular-expression predicates (env.ts, sign-permit.ts) -/

/-- Hexadecimal digit, as matched by the character class `[0-9a-fA-F]`. -/
def isHexChar (c : Char) : Bool :=
  c.isDigit || (Char.ofNat 97 ≤ c && c ≤ Char.ofNat 102) || (Char.ofNat 65 ≤ c && c ≤ Char.ofNat 70)

/-- The regex `PRIVATE_KEY_REGEX = /^0[xX][0-9a-fA-F]{64}$/` of `env.ts`. -/
def matchesPrivateKeyEnv (s : String) : Bool :=
  match s.data with
  | '0' :: x :: rest => (x = 'x' || x = 'X') && rest.length = 64 && rest.all isHexChar
  | _ => false

/-- The regex `PRIVATE_KEY_REGEX = /^0x[0-9a-fA-F]{64}$/` of `sign-permit.ts`. -/
def matchesPrivateKey (s : String) : Bool :=
  match s.data with
  | '0' :: 'x' :: rest => rest.length = 64 && rest.all isHexChar
  | _ => false

/-- The regex `ADDRESS_REGEX = /^0x[0-9a-fA-F]{40}$/` of `sign-permit.ts`. -/
def matchesAddress (s : String) : Bool :=
  match s.data with
  | '0' :: 'x' :: rest => rest.length = 40 && rest.all isHexChar
  | _ => false

/-- The regex `POSITIVE_INTEGER_REGEX = /^[1-9][0-9]*$/` of `env.ts`. -/
def matchesPositiveInteger (s : String) : Bool :=
  match s.data with
  | c :: rest => ('1' ≤ c && c ≤ '9') && rest.all Char.isDigit
  | [] => false

/-! ## Environment source (env.ts) -/

/-- A record of environment variables (`Record<string, string | undefined>`);
an absent key models `undefined`. -/
abbrev EnvSource := List (String × String)

/-- JS `String.prototype.trim` whitespace (the ASCII fragment plus the
common controls; exotic Unicode space characters are outside the modelled
subset and appear in no theorem below). -/
def jsWhitespaceChar (c : Char) : Bool :=
  c.isWhitespace || c = Char.ofNat 11 || c = Char.ofNat 12

/-- JS `value.trim()`: strip leading and trailing whitespace. -/
def jsTrim (s : String) : String :=
  String.mk (((s.data.dropWhile jsWhitespaceChar).reverse.dropWhile jsWhitespaceChar).reverse)

/-- The `readTrimmed` helper of `env.ts`: read a key, trim it, and treat an
empty trimmed value like an absent one. -/
def readTrimmed (env : EnvSource) (key : String) : Option String :=
  match env.lookup key with
  | none => none
  | some value =>
    let trimmed := jsTrim value
    if trimmed.length > 0 then some trimmed else none

def DEFAULT_ROUTER_URL : String := "http://localhost:8080"

def DEFAULT_NETWORK : String := "eip155:8453"

def DEFAULT_PERMIT_CAP : String := "10000000"

def DEFAULT_PAYMENT_HEADER : String := "PAYMENT-SIGNATURE"

def DEFAULT_MODEL_ID : String := "kimi-k2.5"

def DEFAULT_MODEL_NAME : String := "Kimi K2.5"

/-- The `normalizePrivateKey` function of `env.ts`: validate against the
private-key regex and canonicalize an uppercase `0X` prefix to `0x`. -/
def normalizePrivateKey (privateKey : String) : Except String String :=
  if matchesPrivateKeyEnv privateKey then
    .ok (match privateKey.data with
      | '0' :: 'X' :: rest => String.mk ('0' :: 'x' :: rest)
      | _ => privateKey)
  else
    .error "X402_PRIVATE_KEY must be a 0x-prefixed 64-byte hex string"

/-! ## URL origin (platform `new URL(...).origin`, used by `normalizeRouterUrl`)

The WHATWG `URL` class is a platform builtin; we model the subset relevant to
router URLs: absolute `http`/`https` URLs of the form
`scheme://host[:port][/path][?query][#fragment]` with hosts made of ASCII
letters, digits, `.` and `-`, no userinfo and no IPv6 bracket syntax.  Scheme
and host are lowercased, a port equal to the scheme default (80/443) is
omitted from the origin, and everything from the first `/`, `?` or `#` after
the authority is discarded.  Inputs outside this subset are mapped to `none`
(the constructor throwing). -/

/-- Split a character list at the first occurrence of `sep`, returning the
parts before and after it, or `none` if `sep` does not occur. -/
def splitAtChar : List Char → Char → Option (List Char × List Char)
  | [], _ => none
  | c :: cs, sep =>
    if c = sep then some ([], cs)
    else
      match splitAtChar cs sep with
      | some (a, b) => some (c :: a, b)
      | none => none

/-- Take characters until the first delimiter, returning the prefix and the
remainder (delimiter included). -/
def takeUntilDelim (delims : List Char) : List Char → List Char × List Char
  | [] => ([], [])
  | c :: cs =>
    if delims.contains c then ([], c :: cs)
    else
      let p := takeUntilDelim delims cs
      (c :: p.1, p.2)

/-- Characters we allow in a modelled URL host. -/
def hostChar (c : Char) : Bool :=
  c.isAlpha || c.isDigit || c = '.' || c = '-'

/-- Numeric value of a list of decimal digits. -/
def digitsToNat (cs : List Char) : Nat :=
  cs.foldl (fun acc c => acc * 10 + (c.toNat - 48)) 0

/-- Default port of a special scheme (80 for http, 443 for https). -/
def defaultPort (scheme : String) : Nat :=
  if scheme = "https" then 443 else 80

/-- Parse the optional port part of an authority: `none` result means the URL
is invalid; `some none` means no port appears in the origin (absent, empty,
or equal to the scheme default); `some (some v)` is an explicit port. -/
def parsePort (scheme : String) : Option (List Char) → Option (Option Nat)
  | none => some none
  | some [] => some none
  | some p =>
    if p.all Char.isDigit then
      let v := digitsToNat p
      if v ≤ 65535 then
        some (if v = defaultPort scheme then none else some v)
      else none
    else none

/-- Origin of the modelled URL parse of `s` (`new URL(s).origin`), or `none`
when the parse fails (the constructor throws). -/
def jsURLOrigin (s : String) : Option String :=
  match splitAtChar s.data ':' with
  | none => none
  | some (schemeCs, rest) =>
    let scheme := String.mk (schemeCs.map Char.toLower)
    if scheme = "http" || scheme = "https" then
      match rest with
      | '/' :: '/' :: rest2 =>
        let ap := takeUntilDelim ['/', '?', '#'] rest2
        let auth := ap.1
        if auth.contains '@' || auth.contains '[' || auth.contains ']' then none
        else
          let hp : List Char × Option (List Char) :=
            match splitAtChar auth ':' with
            | none => (auth, none)
            | some (h, p) => (h, some p)
          if hp.1 ≠ [] && hp.1.all hostChar then
            match parsePort scheme hp.2 with
            | none => none
            | some port? =>
              let host := String.mk (hp.1.map Char.toLower)
              some (scheme ++ "://" ++ host ++
                (match port? with
                 | none => ""
                 | some v => ":" ++ toString v))
          else none
      | _ => none
    else none

/-- The `normalizeRouterUrl` function of `env.ts`: `new URL(routerUrl).origin`,
with a parse failure surfaced as a router-URL-specific error. -/
def normalizeRouterUrl (routerUrl : String) : Except String String :=
  match jsURLOrigin routerUrl with
  | some origin => .ok origin
  | none => .error "X402_ROUTER_URL must be a valid URL"

/-- The `normalizePermitCap` function of `env.ts`. -/
def normalizePermitCap (permitCap : String) : Except String String :=
  if matchesPositiveInteger permitCap then .ok permitCap
  else .error "X402_PERMIT_CAP must be a positive integer string"

/-- The `X402EnvConfig` produced by `loadX402Env`. -/
structure X402EnvConfig where
  privateKey : String
  routerUrl : String
  network : String
  permitCap : String
  paymentHeader : String
  modelId : String
  modelName : String
deriving Repr, DecidableEq

/-- The `loadX402Env` function of `env.ts`.  Normalizations run in the order
the returned object literal evaluates them: private key, router URL, permit
cap (the first failure is the error surfaced). -/
def loadX402Env (env : EnvSource) : Except String X402EnvConfig := do
  let some privateKeyRaw := readTrimmed env "X402_PRIVATE_KEY"
    | .error "X402_PRIVATE_KEY is required"
  let routerUrlRaw := (readTrimmed env "X402_ROUTER_URL").getD DEFAULT_ROUTER_URL
  let permitCapRaw := (readTrimmed env "X402_PERMIT_CAP").getD DEFAULT_PERMIT_CAP
  let network := (readTrimmed env "X402_NETWORK").getD DEFAULT_NETWORK
  let paymentHeader := (readTrimmed env "X402_PAYMENT_HEADER").getD DEFAULT_PAYMENT_HEADER
  let modelId := (readTrimmed env "X402_MODEL_ID").getD DEFAULT_MODEL_ID
  let modelName := (readTrimmed env "X402_MODEL_NAME").getD DEFAULT_MODEL_NAME
  let privateKey ← normalizePrivateKey privateKeyRaw
  let routerUrl ← normalizeRouterUrl routerUrlRaw
  let permitCap ← normalizePermitCap permitCapRaw
  .ok { privateKey, routerUrl, network, permitCap, paymentHeader, modelId, modelName }

/-! ## Chain resolution (sign-permit.ts) -/

/-- The slice of a viem `Chain` object the signer uses: its numeric id. -/
structure Chain where
  id : Int
deriving Repr, DecidableEq

def mainnet : Chain := ⟨1⟩

def base : Chain := ⟨8453⟩

def baseSepolia : Chain := ⟨84532⟩

/-- The `CHAINS` record of `sign-permit.ts`. -/
def CHAINS (network : String) : Option Chain :=
  if network = "eip155:1" then some mainnet
  else if network = "eip155:8453" then some base
  else if network = "eip155:84532" then some baseSepolia
  else none

/-- The `resolveChain` function: `CHAINS[network] ?? base`. -/
def resolveChain (network : String) : Chain :=
  (CHAINS network).getD base

/-- JS `string.split(sep)` for a single-character separator, on character
lists: the list of fields between occurrences of `sep`. -/
def splitFields (sep : Char) : List Char → List (List Char)
  | [] => [[]]
  | c :: cs =>
    let r := splitFields sep cs
    if c = sep then [] :: r
    else
      match r with
      | [] => [[c]]
      | f :: rest => (c :: f) :: rest

/-- The destructuring `const [, chainId] = network.split(":")` followed by
`chainId ?? ""`. -/
def networkSuffix (network : String) : String :=
  match (splitFields ':' network.data).get? 1 with
  | some f => String.mk f
  | none => ""

/-- JS `Number.parseInt(s, 10)`: skip leading whitespace, read an optional
sign, then the maximal run of decimal digits; `none` models `NaN` (no digit
found).  Parsed values are exact integers, all of which `Number.isFinite`
accepts. -/
def jsParseInt10 (s : String) : Option Int :=
  let cs := s.data.dropWhile Char.isWhitespace
  let sign : Int := if cs.head? = some '-' then -1 else 1
  let rest := if cs.head? = some '-' || cs.head? = some '+' then cs.tail else cs
  let digits := rest.takeWhile Char.isDigit
  if digits = [] then none
  else some (sign * (digitsToNat digits : Nat))

/-- The `resolveChainId` function of `sign-permit.ts`: parse the part after
the first `:` with `Number.parseInt(..., 10)` and fall back when the result
is not finite (`NaN`). -/
def resolveChainId (network : String) (fallback : Int) : Int :=
  match jsParseInt10 (networkSuffix network) with
  | some parsed => parsed
  | none => fallback

/-- Chain-id resolution as the specification words it (for comparison with
`resolveChainId`): the numeric id is taken from the `eip155:<id>` suffix, and
the fallback is used whenever the suffix is absent or non-numeric — that is,
whenever the suffix is not a plain string of decimal digits. -/
def specResolveChainId (network : String) (fallback : Int) : Int :=
  let suffix := networkSuffix network
  if suffix ≠ "" && suffix.data.all Char.isDigit then (digitsToNat suffix.data : Int)
  else fallback

/-! ## Data model (types.ts) -/

/-- The `RouterConfig` record. -/
structure RouterConfig where
  network : String
  asset : String
  payTo : String
  facilitatorSigner : String
  tokenName : String
  tokenVersion : String
  paymentHeader : String
deriving Repr, DecidableEq

/-- The `CachedPermit` record returned by the signer. -/
structure CachedPermit where
  paymentSig : String
  deadline : Nat
  maxValue : String
  nonce : String
  network : String
  asset : String
  payTo : String
deriving Repr, DecidableEq

/-- The `SignPermitParams` record. -/
structure SignPermitParams where
  privateKey : String
  permitCap : String
  routerConfig : RouterConfig
deriving Repr, DecidableEq

/-! ## Permit signer (sign-permit.ts)

The signer's effectful collaborators — `privateKeyToAccount`, the on-chain
`nonces(owner)` read and `wallet.signTypedData` — are modelled by an oracle
recording the values those calls produce for the run under consideration. -/

/-- Values produced by the signer's effectful collaborators. -/
structure SignOracle where
  ownerAddress : String
  nonce : Nat
  nowSec : Nat
  signature : String
deriving Repr, DecidableEq

def DEFAULT_VALIDITY_SECONDS : Nat := 3600

/-- The `asPrivateKey` validator of `sign-permit.ts`. -/
def asPrivateKey (value : String) : Except String String :=
  if matchesPrivateKey value then .ok value
  else .error "X402_PRIVATE_KEY must be a 0x-prefixed 64-byte hex string"

/-- The `asAddress` validator of `sign-permit.ts`; the error message names
the offending field. -/
def asAddress (value field : String) : Except String String :=
  if matchesAddress value then .ok value
  else .error (field ++ " must be a 0x-prefixed 20-byte hex address")

/-- JS `BigInt(string)` on the decimal subset: surrounding whitespace is
trimmed, the empty string is `0`, otherwise an optional sign followed by
decimal digits; `none` models the constructor throwing.  (The hex/octal/
binary literal forms are outside the modelled subset; no theorem below
evaluates them.) -/
def jsBigInt? (s : String) : Option Int :=
  let cs := (s.data.dropWhile Char.isWhitespace).reverse.dropWhile Char.isWhitespace |>.reverse
  match cs with
  | [] => some 0
  | '-' :: ds => if ds ≠ [] && ds.all Char.isDigit then some (-(digitsToNat ds : Int)) else none
  | '+' :: ds => if ds ≠ [] && ds.all Char.isDigit then some ((digitsToNat ds : Nat) : Int) else none
  | ds => if ds.all Char.isDigit then some ((digitsToNat ds : Nat) : Int) else none

/-- Escape one character the way `JSON.stringify` escapes it inside a string
literal (the fragment needed here: quote, backslash and common controls). -/
def jsonEscapeChar (c : Char) : String :=
  if c = '"' then "\\\""
  else if c = '\\' then "\\\\"
  else if c = Char.ofNat 10 then "\\n"
  else if c = Char.ofNat 13 then "\\r"
  else if c = Char.ofNat 9 then "\\t"
  else String.singleton c

/-- A JSON string literal for `s`. -/
def jsonStr (s : String) : String :=
  "\"" ++ String.join (s.data.map jsonEscapeChar) ++ "\""

/-- The `PaymentPayload` JSON text assembled by `signPermitWithViem`, with
the field order of the object literal (`JSON.stringify` preserves it). -/
def paymentPayloadJson (params : SignPermitParams) (owner : String) (facilitatorSigner : String)
    (nonce : Nat) (deadline : Nat) (signature : String) : String :=
  "\x7b\"x402Version\":2,\"accepted\":\x7b\"scheme\":\"upto\",\"network\":" ++
    jsonStr params.routerConfig.network ++ ",\"asset\":" ++ jsonStr params.routerConfig.asset ++
    ",\"payTo\":" ++ jsonStr params.routerConfig.payTo ++ ",\"extra\":\x7b\"name\":" ++
    jsonStr params.routerConfig.tokenName ++ ",\"version\":" ++
    jsonStr params.routerConfig.tokenVersion ++ "\x7d\x7d,\"payload\":\x7b\"authorization\":\x7b\"from\":" ++
    jsonStr owner ++ ",\"to\":" ++ jsonStr facilitatorSigner ++ ",\"value\":" ++
    jsonStr params.permitCap ++ ",\"validBefore\":" ++ jsonStr (toString deadline) ++
    ",\"nonce\":" ++ jsonStr (toString nonce) ++ "\x7d,\"signature\":" ++ jsonStr signature ++
    "\x7d\x7d"

def base64Table : List Char :=
  "ABCDEFGHIJKLMNOPQRSTUVWXYZabcdefghijklmnopqrstuvwxyz0123456789+/".data

/-- Base64-encode a byte list (RFC 4648, with padding). -/
def base64EncodeBytes : List Nat → String
  | [] => ""
  | [a] =>
    String.mk [base64Table.getD (a / 4) 'A', base64Table.getD (a % 4 * 16) 'A'] ++ "=="
  | [a, b] =>
    String.mk [base64Table.getD (a / 4) 'A', base64Table.getD (a % 4 * 16 + b / 16) 'A',
      base64Table.getD (b % 16 * 4) 'A'] ++ "="
  | a :: b :: c :: rest =>
    String.mk [base64Table.getD (a / 4) 'A', base64Table.getD (a % 4 * 16 + b / 16) 'A',
      base64Table.getD (b % 16 * 4 + c / 64) 'A', base64Table.getD (c % 64) 'A'] ++
      base64EncodeBytes rest

/-- The `toBase64` helper of `sign-permit.ts`: base64 of the UTF-8 bytes. -/
def toBase64 (value : String) : String :=
  base64EncodeBytes (value.toUTF8.toList.map UInt8.toNat)

/-- The `signPermitWithViem` function of `sign-permit.ts`.  Pure chain
resolution runs first, then the three format validators in source order; the
on-chain nonce read, the clock and the typed-data signature are supplied by
the oracle, which the result cannot depend on when validation fails. -/
def signPermitWithViem (params : SignPermitParams) (o : SignOracle) : Except String CachedPermit := do
  let chain := resolveChain params.routerConfig.network
  let _chainId := resolveChainId params.routerConfig.network chain.id
  let _privateKey ← asPrivateKey params.privateKey
  let _asset ← asAddress params.routerConfig.asset "routerConfig.asset"
  let facilitatorSigner ← asAddress params.routerConfig.facilitatorSigner "routerConfig.facilitatorSigner"
  let nonce := o.nonce
  let deadline := o.nowSec + DEFAULT_VALIDITY_SECONDS
  let some _value := jsBigInt? params.permitCap
    | .error "Cannot convert permitCap to a BigInt"
  let payload := paymentPayloadJson params o.ownerAddress facilitatorSigner nonce deadline o.signature
  .ok { paymentSig := toBase64 payload
        deadline
        maxValue := params.permitCap
        nonce := toString nonce
        network := params.routerConfig.network
        asset := params.routerConfig.asset
        payTo := params.routerConfig.payTo }

/-! ## Router config resolver (index.ts, createRouterConfigResolver) -/

/-- A parsed JSON body from `GET {routerUrl}/v1/config`; absent fields model
missing/unknown keys. -/
structure RouterJson where
  network : Option String
  asset : Option String
  payTo : Option String
  facilitatorSigner : Option String
  tokenName : Option String
  tokenVersion : Option String
  paymentHeader : Option String
deriving Repr, DecidableEq

def emptyRouterJson : RouterJson :=
  ⟨none, none, none, none, none, none, none⟩

/-- The defaults the resolver closes over (`options.network`,
`options.paymentHeader`). -/
structure RouterDefaults where
  network : String
  paymentHeader : String
deriving Repr, DecidableEq

def PLACEHOLDER_ADDRESS : String := "0x0000000000000000000000000000000000000000"

def PLACEHOLDER_TOKEN_NAME : String := "Token"

def PLACEHOLDER_TOKEN_VERSION : String := "1"

/-- Modelled from the spec: `normalizeRouterConfig` (`src/router-config.ts`
is not among the available sources).  Per the design document, any shape is
normalized: missing `network`/`paymentHeader` fall back to the configured
defaults and the remaining fields to placeholders, so the pure-fallback
config (`normalizeRouterConfig {} defaults`) is built purely from the
locally-known network and payment-header defaults with placeholder
asset/payTo fields. -/
def normalizeRouterConfig (data : RouterJson) (defaults : RouterDefaults) : RouterConfig :=
  { network := data.network.getD defaults.network
    asset := data.asset.getD PLACEHOLDER_ADDRESS
    payTo := data.payTo.getD PLACEHOLDER_ADDRESS
    facilitatorSigner := data.facilitatorSigner.getD PLACEHOLDER_ADDRESS
    tokenName := data.tokenName.getD PLACEHOLDER_TOKEN_NAME
    tokenVersion := data.tokenVersion.getD PLACEHOLDER_TOKEN_VERSION
    paymentHeader := data.paymentHeader.getD defaults.paymentHeader }

/-- The fallback config the resolver builds on every cache miss. -/
def routerFallback (defaults : RouterDefaults) : RouterConfig :=
  normalizeRouterConfig emptyRouterJson defaults

/-- The closed-over mutable state of `createRouterConfigResolver`. -/
structure ResolverState where
  cached : Option RouterConfig
  cachedAtMs : Int
deriving Repr, DecidableEq

/-- Initial resolver state (`cached = null`, `cachedAtMs = 0`). -/
def initialResolverState : ResolverState := ⟨none, 0⟩

/-- Outcome of the `baseFetch(configUrl)` call plus `response.json()`:
`ok` is a 2xx response with parsed JSON, `httpError` is `!response.ok`,
`failure` is a thrown network or parse error (the `catch` branch). -/
inductive ConfigFetchOutcome where
  | ok : RouterJson → ConfigFetchOutcome
  | httpError : ConfigFetchOutcome
  | failure : ConfigFetchOutcome
deriving Repr, DecidableEq

def CACHE_TTL_MS : Int := 30000

/-- The URL the resolver fetches: `new URL("/v1/config", routerUrl + "/")`
resolves to `routerUrl ++ "/v1/config"` for an origin-shaped `routerUrl`. -/
def configUrl (routerUrl : String) : String :=
  routerUrl ++ "/v1/config"

/-- The cache-hit test `cached && now - cachedAtMs < CACHE_TTL_MS`. -/
def cacheFresh (st : ResolverState) (now : Int) : Bool :=
  st.cached.isSome && now - st.cachedAtMs < CACHE_TTL_MS

/-- Result of one resolver call: the returned config, the new closed-over
state, and the URL fetched (`none` on a cache hit). -/
structure ResolveResult where
  config : RouterConfig
  state : ResolverState
  fetchedUrl : Option String
deriving Repr, DecidableEq

/-- One call of the resolver returned by `createRouterConfigResolver`
(index.ts).  The function is total: every fetch outcome, including HTTP
errors and thrown network/parse failures, is mapped to a returned config —
the resolver never throws to its caller. -/
def resolveRouterConfigStep (defaults : RouterDefaults) (routerUrl : String)
    (st : ResolverState) (now : Int) (outcome : ConfigFetchOutcome) : ResolveResult :=
  if cacheFresh st now then
    ⟨st.cached.getD (routerFallback defaults), st, none⟩
  else
    let fallback := routerFallback defaults
    match outcome with
    | .ok data =>
      let config := normalizeRouterConfig data defaults
      ⟨config, ⟨some config, now⟩, some (configUrl routerUrl)⟩
    | .httpError => ⟨fallback, ⟨some fallback, now⟩, some (configUrl routerUrl)⟩
    | .failure => ⟨fallback, ⟨some fallback, now⟩, some (configUrl routerUrl)⟩

/-! ## Fetch installer (index.ts, createFetchPatcher)

Fetch implementations are identified by `Nat` ids; `globalThis.fetch` is the
`globalFetch` field.  Each `acquire()` appends a `released` flag for the
release closure it returns; `PatchOp.release i` calls the closure of the
i-th acquisition (a no-op once the flag is set, and for an id never issued).
`PatchOp.repatch` models another component overwriting `globalThis.fetch`. -/

structure PatchWorld where
  globalFetch : Nat
  activeStreams : Int
  originalFetch : Option Nat
  released : List Bool
deriving Repr, DecidableEq

inductive PatchOp where
  | acquire : PatchOp
  | release : Nat → PatchOp
  | repatch : Nat → PatchOp
deriving Repr, DecidableEq

/-- One step of `createFetchPatcher(fetchImpl)` (index.ts). -/
def patchStep (fetchImpl : Nat) (w : PatchWorld) : PatchOp → PatchWorld
  | .acquire =>
    let w1 := if w.activeStreams = 0 then
        { w with originalFetch := some w.globalFetch, globalFetch := fetchImpl }
      else w
    { w1 with activeStreams := w1.activeStreams + 1, released := w1.released ++ [false] }
  | .release i =>
    match w.released.get? i with
    | some false =>
      let released1 := w.released.set i true
      let n := w.activeStreams - 1
      if n = 0 then
        match w.originalFetch with
        | some original =>
          { globalFetch := if w.globalFetch = fetchImpl then original else w.globalFetch
            activeStreams := n
            originalFetch := none
            released := released1 }
        | none => { w with activeStreams := n, released := released1 }
      else { w with activeStreams := n, released := released1 }
    | _ => w
  | .repatch f => { w with globalFetch := f }

/-- Run a sequence of patcher operations. -/
def patchRun (fetchImpl : Nat) (w : PatchWorld) (ops : List PatchOp) : PatchWorld :=
  ops.foldl (patchStep fetchImpl) w

/-! ## Permit cache (cache.ts is not among the available sources) -/

/-- Modelled from the spec: a permit-cache entry owns the signed permit and
its spend ledger. -/
structure CacheEntry where
  permit : CachedPermit
  spend : Nat
deriving Repr, DecidableEq

abbrev PermitCacheState := List (String × CacheEntry)

/-- The permit-cache key `network:asset:payTo`. -/
def permitKey (c : RouterConfig) : String :=
  c.network ++ ":" ++ c.asset ++ ":" ++ c.payTo

/-- Value of a decimal-digit string, `none` on any other shape. -/
def decNat? (s : String) : Option Nat :=
  if s ≠ "" && s.data.all Char.isDigit then some (digitsToNat s.data) else none

/-- Numeric reading of a permit's `maxValue` (a base-unit integer string). -/
def maxValueNat (p : CachedPermit) : Nat :=
  (decNat? p.maxValue).getD 0

/-- Modelled from the spec: the reuse test of `PermitCache.getPermit` — a
cached permit is reusable only while `now < deadline` and ledger spend is
strictly below `maxValue`. -/
def permitReusable (e : CacheEntry) (now : Nat) : Bool :=
  now < e.permit.deadline && e.spend < maxValueNat e.permit

/-- Replace (or insert) the entry for `key`. -/
def setEntry : PermitCacheState → String → CacheEntry → PermitCacheState
  | [], key, e => [(key, e)]
  | (k, v) :: rest, key, e =>
    if k = key then (key, e) :: rest else (k, v) :: setEntry rest key e

/-- Modelled from the spec: `PermitCache.getPermit(key, signFn)`
(`src/cache.ts` is not among the available sources).  `minted` is the permit
`signFn` would produce on this call.  Returns the cached permit when the
entry exists and is reusable; otherwise invokes `signFn`, replaces the
entry and resets its ledger to zero. -/
def getPermit (st : PermitCacheState) (now : Nat) (key : String) (minted : CachedPermit) :
    CachedPermit × PermitCacheState :=
  match st.lookup key with
  | some e =>
    if permitReusable e now then (e.permit, st)
    else (minted, setEntry st key ⟨minted, 0⟩)
  | none => (minted, setEntry st key ⟨minted, 0⟩)

/-- Modelled from the spec: `PermitCache.recordSpend(key, amount)` increments
the ledger for `key`. -/
def recordSpend (st : PermitCacheState) (key : String) (amount : Nat) : PermitCacheState :=
  match st.lookup key with
  | some e => setEntry st key ⟨e.permit, e.spend + amount⟩
  | none => st

/-! ## Payment-aware fetch (fetch-wrapper.ts is not among the available sources) -/

/-- The options record `index.ts` passes to `createX402Fetch` (besides the
function-valued fields `baseFetch`, `resolveRouterConfig`, `permitCache` and
`signer`): note there is no static-payment-signature field, so the wrapper's
behavior cannot depend on whether a static signature is configured. -/
structure X402FetchConfig where
  permitCap : String
  privateKey : String
  routerUrl : String
deriving Repr, DecidableEq

structure Request where
  url : String
  headers : List (String × String)
deriving Repr, DecidableEq

structure Response where
  status : Nat
  body : String
deriving Repr, DecidableEq

/-- Observable actions of one payment-aware fetch call. -/
inductive FetchEvent where
  | networkCall : Request → FetchEvent
  | resolveConfig : FetchEvent
  | acquirePermit : FetchEvent
deriving Repr, DecidableEq

structure WrapperRun where
  response : Response
  events : List FetchEvent
deriving Repr, DecidableEq

/-- The 401/402 payment-required test. -/
def isPaymentRequired (status : Nat) : Bool :=
  status = 401 || status = 402

/-- Modelled from the spec: the payment-aware fetch built by
`createX402Fetch` (`src/fetch-wrapper.ts` is not among the available
sources).  `server n` is the response to the n-th network call of this
logical request; `config` is what `resolveRouterConfig` resolves to and
`permitOutcome` what permit acquisition (cache lookup or fresh sign)
produces.  Per the design document: issue the request; on a 401/402 resolve
the router config, obtain a permit, attach the payment header and retry
exactly once, returning the retried response as-is; on any other status pass
the response through; when permit acquisition fails, surface the original
rejection instead of masking it. -/
def x402FetchModel (_cfg : X402FetchConfig) (config : RouterConfig)
    (permitOutcome : Except String CachedPermit) (req : Request)
    (server : Nat → Response) : WrapperRun :=
  let first := server 0
  if isPaymentRequired first.status then
    match permitOutcome with
    | .ok permit =>
      let retried : Request :=
        { req with headers := req.headers ++ [(config.paymentHeader, permit.paymentSig)] }
      ⟨server 1, [.networkCall req, .resolveConfig, .acquirePermit, .networkCall retried]⟩
    | .error _ => ⟨first, [.networkCall req, .resolveConfig, .acquirePermit]⟩
  else ⟨first, [.networkCall req]⟩

/-- Number of `networkCall` events in a list. -/
def countNetworkCalls : List FetchEvent → Nat
  | [] => 0
  | .networkCall _ :: rest => countNetworkCalls rest + 1
  | _ :: rest => countNetworkCalls rest

/-- Number of underlying network calls in a wrapper run. -/
def networkCalls (r : WrapperRun) : Nat :=
  countNetworkCalls r.events

/-! ## Provider registration (index.ts, registerX402Provider) -/

/-- The registration record handed to `pi.registerProvider` (the slice the
claims are about). -/
structure ProviderRegistration where
  baseUrl : String
  apiKey : String
  api : String
  headers : Option (List (String × String))
  modelId : String
  modelName : String
deriving Repr, DecidableEq

/-- What `registerX402Provider` constructs on success. -/
structure RegisterResult where
  provider : ProviderRegistration
  fetchConfig : X402FetchConfig
  signerConstructed : Bool
  streamPatchesFetch : Bool
deriving Repr, DecidableEq

/-- The `withV1Path` helper of `index.ts` (`origin.endsWith("/")` is whether
the last character is a slash). -/
def withV1Path (origin : String) : String :=
  if origin.data.getLast? = some '/' then origin ++ "v1" else origin ++ "/v1"

/-- The `registerX402Provider` function of `index.ts`.  `loadX402Env` runs
first, so a configuration error aborts before `createPermitSigner()` and the
rest of the wiring (`signerConstructed` is only ever produced on the success
path).  `streamPatchesFetch` records that `streamX402` acquires the fetch
patcher unconditionally — with or without a static payment signature.  The
static signature, when present and non-empty after trimming, only becomes a
provider-level header; it is not among the options passed to
`createX402Fetch` (see `X402FetchConfig`). -/
def registerX402Provider (envSource : EnvSource) : Except String RegisterResult := do
  let env ← loadX402Env envSource
  let staticPaymentSignature := (envSource.lookup "X402_PAYMENT_SIGNATURE").map jsTrim
  let headers : Option (List (String × String)) :=
    match staticPaymentSignature with
    | some s => if s.length > 0 then some [(env.paymentHeader, s)] else none
    | none => none
  .ok { provider := { baseUrl := withV1Path env.routerUrl
                      apiKey := "x402-placeholder"
                      api := "x402-openai-completions"
                      headers
                      modelId := env.modelId
                      modelName := env.modelName }
        fetchConfig := { permitCap := env.permitCap
                         privateKey := env.privateKey
                         routerUrl := env.routerUrl }
        signerConstructed := true
        streamPatchesFetch := true }

/-! ## Auxiliary predicates used by the theorems below -/

/-- Lowercase letter, digit, dot or dash: hosts for which the modelled URL
lowercasing is the identity. -/
def lowerHostChar (c : Char) : Bool :=
  c.isDigit || c.isLower || c = '.' || c = '-'

/-- A trailing URL part that begins a path, query or fragment (or nothing):
the shapes discarded by origin extraction. -/
def suffixOk (suffix : String) : Bool :=
  match suffix.data with
  | [] => true
  | c :: _ => c = '/' || c = '?' || c = '#'

/-! ## Theorems -/

@[simp]
theorem except_bind_ok {ε α β : Type} (a : α) (f : α → Except ε β) :
    (Except.ok a >>= f : Except ε β) = f a := rfl

@[simp]
theorem except_bind_error {ε α β : Type} (e : ε) (f : α → Except ε β) :
    ((Except.error e : Except ε α) >>= f) = Except.error e := rfl

theorem permitReusable_iff (e : CacheEntry) (now : Nat) :
    permitReusable e now = true ↔ now < e.permit.deadline ∧ e.spend < maxValueNat e.permit := by
  simp [permitReusable]

theorem lookup_setEntry (st : PermitCacheState) (key : String) (e : CacheEntry) :
    (setEntry st key e).lookup key = some e := by
  induction st with
  | nil => simp [setEntry, List.lookup]
  | cons kv rest ih =>
    by_cases h : kv.1 = key
    · simp [setEntry, h, List.lookup]
    · have hb : (key == kv.1) = false := beq_eq_false_iff_ne.mpr fun hh => h hh.symm
      simp [setEntry, h, List.lookup, hb, ih]

/-- C3: for every cache state and key, `getPermit` returns the cached permit
only while `now < deadline` and the recorded spend is strictly below
`maxValue`; once the deadline has passed or the spend has reached `maxValue`,
the cached permit is never returned — the fresh permit minted by `signFn`
replaces the entry and its ledger restarts at zero. -/
theorem getPermit_reuse_policy (st : PermitCacheState) (now : Nat) (key : String)
    (minted : CachedPermit) :
    (∀ e, st.lookup key = some e → now < e.permit.deadline → e.spend < maxValueNat e.permit →
      getPermit st now key minted = (e.permit, st)) ∧
    (∀ e, st.lookup key = some e → ¬ (now < e.permit.deadline ∧ e.spend < maxValueNat e.permit) →
      getPermit st now key minted = (minted, setEntry st key ⟨minted, 0⟩) ∧
      (setEntry st key ⟨minted, 0⟩).lookup key = some ⟨minted, 0⟩) ∧
    (st.lookup key = none →
      getPermit st now key minted = (minted, setEntry st key ⟨minted, 0⟩) ∧
      (setEntry st key ⟨minted, 0⟩).lookup key = some ⟨minted, 0⟩) := by
  refine ⟨?_, ?_, ?_⟩
  · intro e hl h1 h2
    simp [getPermit, hl, permitReusable, h1, h2]
  · intro e hl h
    have hb : permitReusable e now = false := by
      cases hb2 : permitReusable e now with
      | false => rfl
      | true => exact absurd ((permitReusable_iff e now).mp hb2) h
    simp [getPermit, hl, hb, lookup_setEntry]
  · intro hl
    simp [getPermit, hl, lookup_setEntry]

/-- Closed instance of the C3 theorem: an exhausted entry (spend has reached
`maxValue`) is replaced by the freshly minted permit with a zero ledger. -/
theorem getPermit_reuse_policy_witness :
    ([("k", ⟨⟨"sig0", 1000, "5", "0", "n", "a", "p"⟩, 5⟩)] : PermitCacheState).lookup "k" =
        some ⟨⟨"sig0", 1000, "5", "0", "n", "a", "p"⟩, 5⟩ ∧
    ¬ ((100 : Nat) < 1000 ∧ (5 : Nat) < maxValueNat ⟨"sig0", 1000, "5", "0", "n", "a", "p"⟩) ∧
    getPermit [("k", ⟨⟨"sig0", 1000, "5", "0", "n", "a", "p"⟩, 5⟩)] 100 "k"
        ⟨"sig1", 4600, "5", "1", "n", "a", "p"⟩ =
      (⟨"sig1", 4600, "5", "1", "n", "a", "p"⟩,
        setEntry [("k", ⟨⟨"sig0", 1000, "5", "0", "n", "a", "p"⟩, 5⟩)] "k"
          ⟨⟨"sig1", 4600, "5", "1", "n", "a", "p"⟩, 0⟩) :=
  ⟨by decide, by decide,
    ((getPermit_reuse_policy [("k", ⟨⟨"sig0", 1000, "5", "0", "n", "a", "p"⟩, 5⟩)] 100 "k"
        ⟨"sig1", 4600, "5", "1", "n", "a", "p"⟩).2.1
      ⟨⟨"sig0", 1000, "5", "0", "n", "a", "p"⟩, 5⟩ (by decide) (by decide)).1⟩

/-- C2: when the first response of a logical request is 401/402, the wrapper
retries exactly once after resolving the config and acquiring a permit — two
network calls in total — and the retried response (even a second 401/402) is
returned as-is; a non-payment first response passes through with a single
call, so no run makes a third attempt. -/
theorem x402Fetch_single_retry (cfg : X402FetchConfig) (config : RouterConfig)
    (permitOutcome : Except String CachedPermit) (req : Request) (server : Nat → Response) :
    (isPaymentRequired (server 0).status = true →
      ∀ p, permitOutcome = .ok p →
        x402FetchModel cfg config permitOutcome req server =
          ⟨server 1, [.networkCall req, .resolveConfig, .acquirePermit,
            .networkCall { req with headers := req.headers ++ [(config.paymentHeader, p.paymentSig)] }]⟩ ∧
        networkCalls (x402FetchModel cfg config permitOutcome req server) = 2) ∧
    (isPaymentRequired (server 0).status = false →
      x402FetchModel cfg config permitOutcome req server = ⟨server 0, [.networkCall req]⟩) ∧
    networkCalls (x402FetchModel cfg config permitOutcome req server) ≤ 2 ∧
    ((x402FetchModel cfg config permitOutcome req server).response = server 0 ∨
      (x402FetchModel cfg config permitOutcome req server).response = server 1) := by
  cases hb : isPaymentRequired (server 0).status with
  | false =>
    refine ⟨by simp [hb], fun _ => by simp [x402FetchModel, hb], ?_, ?_⟩
    · simp [x402FetchModel, hb, networkCalls, countNetworkCalls]
    · left
      simp [x402FetchModel, hb]
  | true =>
    cases permitOutcome with
    | ok p =>
      refine ⟨?_, by simp [hb], ?_, ?_⟩
      · intro _ q hq
        cases hq
        exact ⟨by simp [x402FetchModel, hb], by simp [x402FetchModel, hb, networkCalls, countNetworkCalls]⟩
      · simp [x402FetchModel, hb, networkCalls, countNetworkCalls]
      · right
        simp [x402FetchModel, hb]
    | error msg =>
      refine ⟨?_, by simp [hb], ?_, ?_⟩
      · intro _ q hq
        cases hq
      · simp [x402FetchModel, hb, networkCalls, countNetworkCalls]
      · left
        simp [x402FetchModel, hb]

/-- Closed instance of the C2 theorem: a request rejected with 402 and
rejected again on the retry makes exactly two network calls and the second
402 is the returned response. -/
theorem x402Fetch_single_retry_witness :
    isPaymentRequired ((fun _ : Nat => (⟨402, "payment required"⟩ : Response)) 0).status = true ∧
    x402FetchModel ⟨"10000000", "0xkey", "http://localhost:8080"⟩
        ⟨"eip155:8453", "0xa", "0xb", "0xc", "USD Coin", "2", "PAYMENT-SIGNATURE"⟩
        (.ok ⟨"permitsig", 4600, "10000000", "7", "eip155:8453", "0xa", "0xb"⟩)
        ⟨"https://router/v1/chat", []⟩ (fun _ => ⟨402, "payment required"⟩) =
      ⟨⟨402, "payment required"⟩,
        [.networkCall ⟨"https://router/v1/chat", []⟩, .resolveConfig, .acquirePermit,
          .networkCall ⟨"https://router/v1/chat", [("PAYMENT-SIGNATURE", "permitsig")]⟩]⟩ ∧
    networkCalls (x402FetchModel ⟨"10000000", "0xkey", "http://localhost:8080"⟩
        ⟨"eip155:8453", "0xa", "0xb", "0xc", "USD Coin", "2", "PAYMENT-SIGNATURE"⟩
        (.ok ⟨"permitsig", 4600, "10000000", "7", "eip155:8453", "0xa", "0xb"⟩)
        ⟨"https://router/v1/chat", []⟩ (fun _ => ⟨402, "payment required"⟩)) = 2 := by
  have h := (x402Fetch_single_retry ⟨"10000000", "0xkey", "http://localhost:8080"⟩
      ⟨"eip155:8453", "0xa", "0xb", "0xc", "USD Coin", "2", "PAYMENT-SIGNATURE"⟩
      (.ok ⟨"permitsig", 4600, "10000000", "7", "eip155:8453", "0xa", "0xb"⟩)
      ⟨"https://router/v1/chat", []⟩ (fun _ => ⟨402, "payment required"⟩)).1
      (by decide) ⟨"permitsig", 4600, "10000000", "7", "eip155:8453", "0xa", "0xb"⟩ rfl
  exact ⟨by decide, h.1, h.2⟩

theorem patchStep_release_eq (fetchImpl : Nat) (w : PatchWorld) (i : Nat)
    (hg : w.released.get? i = some false) :
    patchStep fetchImpl w (.release i) =
      if w.activeStreams - 1 = 0 then
        match w.originalFetch with
        | some original =>
          { globalFetch := if w.globalFetch = fetchImpl then original else w.globalFetch
            activeStreams := w.activeStreams - 1
            originalFetch := none
            released := w.released.set i true }
        | none => { w with activeStreams := w.activeStreams - 1, released := w.released.set i true }
      else { w with activeStreams := w.activeStreams - 1, released := w.released.set i true } := by
  have hg2 : w.released[i]? = some false := by
    rw [← List.get?_eq_getElem?]
    exact hg
  simp [patchStep, hg2]

theorem patchStep_release_noop (fetchImpl : Nat) (w : PatchWorld) (i : Nat)
    (hg : w.released.get? i ≠ some false) :
    patchStep fetchImpl w (.release i) = w := by
  cases hg2 : w.released.get? i with
  | none =>
    have hg3 : w.released[i]? = none := by
      rw [← List.get?_eq_getElem?]
      exact hg2
    simp [patchStep, hg3]
  | some b =>
    cases b with
    | false => exact absurd hg2 hg
    | true =>
      have hg3 : w.released[i]? = some true := by
        rw [← List.get?_eq_getElem?]
        exact hg2
      simp [patchStep, hg3]

/-- C5: the payment-aware fetch is installed exactly on the 0 → 1 transition
of the active-caller count; each release closure decrements the count at most
once (calling it again is a no-op); and the captured original fetch is
restored exactly when the count returns to 0 — and only if the installed
global fetch is still the one this patcher set, the capture being dropped
(and never restored later) otherwise. -/
theorem fetchPatcher_refcount (fetchImpl : Nat) (w : PatchWorld) (i : Nat) :
    (w.activeStreams = 0 →
      patchStep fetchImpl w .acquire =
        { globalFetch := fetchImpl
          activeStreams := 1
          originalFetch := some w.globalFetch
          released := w.released ++ [false] }) ∧
    (w.activeStreams ≠ 0 →
      patchStep fetchImpl w .acquire =
        { w with activeStreams := w.activeStreams + 1, released := w.released ++ [false] }) ∧
    patchStep fetchImpl (patchStep fetchImpl w (.release i)) (.release i) =
      patchStep fetchImpl w (.release i) ∧
    (w.released.get? i = some false →
      (w.activeStreams - 1 ≠ 0 →
        patchStep fetchImpl w (.release i) =
          { w with activeStreams := w.activeStreams - 1, released := w.released.set i true }) ∧
      (w.activeStreams - 1 = 0 →
        (∀ original, w.originalFetch = some original →
          patchStep fetchImpl w (.release i) =
            { globalFetch := if w.globalFetch = fetchImpl then original else w.globalFetch
              activeStreams := w.activeStreams - 1
              originalFetch := none
              released := w.released.set i true }) ∧
        (w.originalFetch = none →
          patchStep fetchImpl w (.release i) =
            { w with activeStreams := w.activeStreams - 1, released := w.released.set i true }))) ∧
    (w.released.get? i ≠ some false → patchStep fetchImpl w (.release i) = w) := by
  refine ⟨?_, ?_, ?_, ?_, patchStep_release_noop fetchImpl w i⟩
  · intro h
    simp [patchStep, h]
  · intro h
    simp [patchStep, h]
  · cases hg : w.released.get? i with
    | none =>
      rw [patchStep_release_noop fetchImpl w i (by rw [hg]; simp),
        patchStep_release_noop fetchImpl w i (by rw [hg]; simp)]
    | some b =>
      cases b with
      | true =>
        rw [patchStep_release_noop fetchImpl w i (by rw [hg]; simp),
          patchStep_release_noop fetchImpl w i (by rw [hg]; simp)]
      | false =>
        have hlen : i < w.released.length := by
          by_contra hlen
          rw [List.get?_eq_none.mpr (Nat.le_of_not_lt hlen)] at hg
          exact Option.noConfusion hg
        have hset : (w.released.set i true).get? i = some true := by
          rw [List.get?_eq_getElem?]
          exact List.getElem?_set_eq_of_lt true (by simpa using hlen)
        rw [patchStep_release_eq fetchImpl w i hg]
        split
        · split
          · exact patchStep_release_noop fetchImpl _ i (by rw [hset]; simp)
          · exact patchStep_release_noop fetchImpl _ i (by rw [hset]; simp)
        · exact patchStep_release_noop fetchImpl _ i (by rw [hset]; simp)
  · intro hg
    constructor
    · intro hn
      rw [patchStep_release_eq fetchImpl w i hg, if_neg hn]
    · intro hz
      constructor
      · intro original ho
        rw [patchStep_release_eq fetchImpl w i hg, if_pos hz, ho]
      · intro ho
        rw [patchStep_release_eq fetchImpl w i hg, if_pos hz, ho]

/-- Closed instance of the C5 theorem, at the state reached after two
concurrent acquisitions and the release of the first caller: releasing the
second caller restores the captured original fetch, while releasing the
first again would be a no-op. -/
theorem fetchPatcher_refcount_witness :
    ((⟨7, 1, some 3, [true, false]⟩ : PatchWorld).released.get? 1 = some false) ∧
    ((1 : Int) - 1 = 0) ∧
    patchStep 7 ⟨7, 1, some 3, [true, false]⟩ (.release 1) =
      { globalFetch := if (7 : Nat) = 7 then 3 else 7
        activeStreams := (1 : Int) - 1
        originalFetch := none
        released := [true, false].set 1 true } :=
  ⟨by decide, by decide,
    (((fetchPatcher_refcount 7 ⟨7, 1, some 3, [true, false]⟩ 1).2.2.2.1
      (by decide)).2 (by decide)).1 3 rfl⟩

/-- C6: a resolver call within the 30s TTL returns the identical cached
config without fetching; a call with an empty or expired cache fetches
`GET {routerUrl}/v1/config`; and on a non-2xx response or a thrown
network/parse failure it returns — and caches with a fresh timestamp — the
fallback config built from the locally-known network and payment-header
defaults.  The resolver is a total function of its inputs: it never throws
to the caller. -/
theorem routerConfigResolver_behavior (defaults : RouterDefaults) (routerUrl : String)
    (st : ResolverState) (now : Int) (outcome : ConfigFetchOutcome) :
    (∀ c, st.cached = some c → now - st.cachedAtMs < CACHE_TTL_MS →
      resolveRouterConfigStep defaults routerUrl st now outcome = ⟨c, st, none⟩) ∧
    ((st.cached = none ∨ CACHE_TTL_MS ≤ now - st.cachedAtMs) →
      (resolveRouterConfigStep defaults routerUrl st now outcome).fetchedUrl =
        some (configUrl routerUrl)) ∧
    ((st.cached = none ∨ CACHE_TTL_MS ≤ now - st.cachedAtMs) →
      (outcome = .httpError ∨ outcome = .failure) →
      resolveRouterConfigStep defaults routerUrl st now outcome =
        ⟨routerFallback defaults, ⟨some (routerFallback defaults), now⟩,
          some (configUrl routerUrl)⟩) ∧
    (routerFallback defaults).network = defaults.network ∧
    (routerFallback defaults).paymentHeader = defaults.paymentHeader := by
  have hmiss : (st.cached = none ∨ CACHE_TTL_MS ≤ now - st.cachedAtMs) →
      cacheFresh st now = false := by
    intro h
    rcases h with h | h
    · simp [cacheFresh, h]
    · simp [cacheFresh, not_lt.mpr h]
  refine ⟨?_, ?_, ?_, rfl, rfl⟩
  · intro c hc hfresh
    have hb : cacheFresh st now = true := by simp [cacheFresh, hc, hfresh]
    simp [resolveRouterConfigStep, hb, hc]
  · intro h
    cases outcome <;> simp [resolveRouterConfigStep, hmiss h]
  · intro h houtcome
    rcases houtcome with ho | ho <;> subst ho <;> simp [resolveRouterConfigStep, hmiss h]

/-- Closed instance of the C6 theorem: with an expired cache and a failed
fetch, the resolver returns and caches the fallback config. -/
theorem routerConfigResolver_behavior_witness :
    ((some (routerFallback ⟨"eip155:8453", "PAYMENT-SIGNATURE"⟩) = none ∨
      CACHE_TTL_MS ≤ (31000 : Int) - 0) ∧
      ((ConfigFetchOutcome.failure = .httpError) ∨ (ConfigFetchOutcome.failure = .failure))) ∧
    resolveRouterConfigStep ⟨"eip155:8453", "PAYMENT-SIGNATURE"⟩ "http://localhost:8080"
        ⟨some (routerFallback ⟨"eip155:8453", "PAYMENT-SIGNATURE"⟩), 0⟩ 31000 .failure =
      ⟨routerFallback ⟨"eip155:8453", "PAYMENT-SIGNATURE"⟩,
        ⟨some (routerFallback ⟨"eip155:8453", "PAYMENT-SIGNATURE"⟩), 31000⟩,
        some (configUrl "http://localhost:8080")⟩ :=
  ⟨⟨Or.inr (by decide), Or.inr rfl⟩,
    (routerConfigResolver_behavior ⟨"eip155:8453", "PAYMENT-SIGNATURE"⟩ "http://localhost:8080"
      ⟨some (routerFallback ⟨"eip155:8453", "PAYMENT-SIGNATURE"⟩), 0⟩ 31000 .failure).2.2.1
      (Or.inr (by decide)) (Or.inr rfl)⟩

/-- C7: the permit signer rejects a malformed private key, asset address or
facilitator-signer address with an error naming the offending field, and the
rejection is independent of the oracle (the on-chain nonce read, clock and
signature), i.e. it happens before any chain read or signing; when all three
checks pass, the validators raise no error. -/
theorem signPermit_validation (params : SignPermitParams) :
    (matchesPrivateKey params.privateKey = false →
      ∀ o : SignOracle, signPermitWithViem params o =
        .error "X402_PRIVATE_KEY must be a 0x-prefixed 64-byte hex string") ∧
    (matchesPrivateKey params.privateKey = true →
      matchesAddress params.routerConfig.asset = false →
      ∀ o : SignOracle, signPermitWithViem params o =
        .error "routerConfig.asset must be a 0x-prefixed 20-byte hex address") ∧
    (matchesPrivateKey params.privateKey = true →
      matchesAddress params.routerConfig.asset = true →
      matchesAddress params.routerConfig.facilitatorSigner = false →
      ∀ o : SignOracle, signPermitWithViem params o =
        .error "routerConfig.facilitatorSigner must be a 0x-prefixed 20-byte hex address") ∧
    (matchesPrivateKey params.privateKey = true →
      matchesAddress params.routerConfig.asset = true →
      matchesAddress params.routerConfig.facilitatorSigner = true →
      asPrivateKey params.privateKey = .ok params.privateKey ∧
      asAddress params.routerConfig.asset "routerConfig.asset" = .ok params.routerConfig.asset ∧
      asAddress params.routerConfig.facilitatorSigner "routerConfig.facilitatorSigner" =
        .ok params.routerConfig.facilitatorSigner) := by
  refine ⟨?_, ?_, ?_, ?_⟩
  · intro hk o
    simp [signPermitWithViem, asPrivateKey, hk]
  · intro hk ha o
    simp [signPermitWithViem, asPrivateKey, asAddress, hk, ha]
  · intro hk ha hf o
    simp [signPermitWithViem, asPrivateKey, asAddress, hk, ha, hf]
  · intro hk ha hf
    exact ⟨by simp [asPrivateKey, hk], by simp [asAddress, ha], by simp [asAddress, hf]⟩

/-- Closed instance of the C7 theorem: a malformed asset address is rejected
with an error naming `routerConfig.asset`, independently of the oracle. -/
theorem signPermit_validation_witness :
    matchesPrivateKey
        "0x1111111111111111111111111111111111111111111111111111111111111111" = true ∧
    matchesAddress "not-an-address" = false ∧
    signPermitWithViem
      ⟨"0x1111111111111111111111111111111111111111111111111111111111111111", "10000000",
        ⟨"eip155:8453", "not-an-address", "0x2222222222222222222222222222222222222222",
          "0x2222222222222222222222222222222222222222", "USD Coin", "2", "PAYMENT-SIGNATURE"⟩⟩
      ⟨"0x1111111111111111111111111111111111111111", 7, 1700000000, "0xsigned"⟩ =
      .error "routerConfig.asset must be a 0x-prefixed 20-byte hex address" :=
  ⟨by decide, by decide,
    (signPermit_validation
      ⟨"0x1111111111111111111111111111111111111111111111111111111111111111", "10000000",
        ⟨"eip155:8453", "not-an-address", "0x2222222222222222222222222222222222222222",
          "0x2222222222222222222222222222222222222222", "USD Coin", "2", "PAYMENT-SIGNATURE"⟩⟩).2.1
      (by decide) (by decide)
      ⟨"0x1111111111111111111111111111111111111111", 7, 1700000000, "0xsigned"⟩⟩

/-- C8: every successful sign returns a `CachedPermit` whose `deadline` is
the oracle clock plus 3600 seconds, whose `maxValue` is the `permitCap`
string unchanged, whose `nonce` is the decimal rendering of the on-chain
`nonces(owner)` read, and whose `network`/`asset`/`payTo` are copied
verbatim from the router config. -/
theorem signPermit_success_fields (params : SignPermitParams) (o : SignOracle) (v : Int)
    (hk : matchesPrivateKey params.privateKey = true)
    (ha : matchesAddress params.routerConfig.asset = true)
    (hf : matchesAddress params.routerConfig.facilitatorSigner = true)
    (hc : jsBigInt? params.permitCap = some v) :
    signPermitWithViem params o =
      .ok { paymentSig := toBase64 (paymentPayloadJson params o.ownerAddress
              params.routerConfig.facilitatorSigner o.nonce
              (o.nowSec + DEFAULT_VALIDITY_SECONDS) o.signature)
            deadline := o.nowSec + 3600
            maxValue := params.permitCap
            nonce := toString o.nonce
            network := params.routerConfig.network
            asset := params.routerConfig.asset
            payTo := params.routerConfig.payTo } := by
  simp [signPermitWithViem, asPrivateKey, asAddress, hk, ha, hf, hc, DEFAULT_VALIDITY_SECONDS]

/-- Closed instance of the C8 theorem at the inputs of the repository's
sign-permit test (nonce 7, cap "10000000"). -/
theorem signPermit_success_fields_witness :
    matchesPrivateKey
        "0x1111111111111111111111111111111111111111111111111111111111111111" = true ∧
    matchesAddress "0x833589fCD6eDb6E08f4c7C32D4f71b54bdA02913" = true ∧
    matchesAddress "0x2222222222222222222222222222222222222222" = true ∧
    jsBigInt? "10000000" = some 10000000 ∧
    signPermitWithViem
      ⟨"0x1111111111111111111111111111111111111111111111111111111111111111", "10000000",
        ⟨"eip155:8453", "0x833589fCD6eDb6E08f4c7C32D4f71b54bdA02913",
          "0x2222222222222222222222222222222222222222",
          "0x2222222222222222222222222222222222222222", "USD Coin", "2", "PAYMENT-SIGNATURE"⟩⟩
      ⟨"0x1111111111111111111111111111111111111111", 7, 1700000000, "0xsigned"⟩ =
      .ok { paymentSig := toBase64 (paymentPayloadJson
              ⟨"0x1111111111111111111111111111111111111111111111111111111111111111", "10000000",
                ⟨"eip155:8453", "0x833589fCD6eDb6E08f4c7C32D4f71b54bdA02913",
                  "0x2222222222222222222222222222222222222222",
                  "0x2222222222222222222222222222222222222222", "USD Coin", "2",
                  "PAYMENT-SIGNATURE"⟩⟩
              "0x1111111111111111111111111111111111111111"
              "0x2222222222222222222222222222222222222222" 7
              (1700000000 + DEFAULT_VALIDITY_SECONDS) "0xsigned")
            deadline := 1700000000 + 3600
            maxValue := "10000000"
            nonce := toString (7 : Nat)
            network := "eip155:8453"
            asset := "0x833589fCD6eDb6E08f4c7C32D4f71b54bdA02913"
            payTo := "0x2222222222222222222222222222222222222222" } :=
  ⟨by decide, by decide, by decide, by decide,
    signPermit_success_fields
      ⟨"0x1111111111111111111111111111111111111111111111111111111111111111", "10000000",
        ⟨"eip155:8453", "0x833589fCD6eDb6E08f4c7C32D4f71b54bdA02913",
          "0x2222222222222222222222222222222222222222",
          "0x2222222222222222222222222222222222222222", "USD Coin", "2", "PAYMENT-SIGNATURE"⟩⟩
      ⟨"0x1111111111111111111111111111111111111111", 7, 1700000000, "0xsigned"⟩
      10000000 (by decide) (by decide) (by decide) (by decide)⟩

theorem digit_not_ws (c : Char) (h : c.isDigit = true) : c.isWhitespace = false := by
  cases hw : c.isWhitespace with
  | false => rfl
  | true =>
    exfalso
    simp only [Char.isWhitespace, Bool.or_eq_true, decide_eq_true_eq] at hw
    rcases hw with ((h1 | h1) | h1) | h1 <;> subst h1 <;> exact absurd h (by decide)

theorem takeWhile_all {p : Char → Bool} :
    ∀ l : List Char, l.all p = true → l.takeWhile p = l := by
  intro l
  induction l with
  | nil => intro _; rfl
  | cons c cs ih =>
    intro h
    rw [List.all_cons] at h
    have hc : p c = true := (Bool.and_eq_true _ _).mp h |>.1
    have hcs : cs.all p = true := (Bool.and_eq_true _ _).mp h |>.2
    rw [List.takeWhile_cons, hc]
    simp [ih hcs]

theorem jsParseInt10_all_digits (s : String) (h1 : s.data ≠ [])
    (h2 : s.data.all Char.isDigit = true) :
    jsParseInt10 s = some ((digitsToNat s.data : Nat) : Int) := by
  unfold jsParseInt10
  cases hd : s.data with
  | nil => exact absurd hd h1
  | cons c cs =>
    rw [hd] at h2
    have hc : c.isDigit = true := by
      rw [List.all_cons] at h2
      exact ((Bool.and_eq_true _ _).mp h2).1
    have hws : c.isWhitespace = false := digit_not_ws c hc
    have hminus : c ≠ '-' := fun he => by subst he; exact absurd hc (by decide)
    have hplus : c ≠ '+' := fun he => by subst he; exact absurd hc (by decide)
    simp [List.dropWhile_cons, hws, hminus, hplus, takeWhile_all (c :: cs) h2]

/-- C4 fails as stated: for `network = "eip155:12x"` the suffix `"12x"` is
non-numeric, so the claim requires the fallback (the resolved chain is Base,
id 8453), but `Number.parseInt("12x", 10)` parses the leading digits and the
code uses 12. -/
theorem chainId_suffix_counterexample :
    resolveChain "eip155:12x" = base ∧
    specResolveChainId "eip155:12x" (resolveChain "eip155:12x").id = 8453 ∧
    resolveChainId "eip155:12x" (resolveChain "eip155:12x").id = 12 ∧
    resolveChainId "eip155:12x" (resolveChain "eip155:12x").id ≠
      specResolveChainId "eip155:12x" (resolveChain "eip155:12x").id := by
  refine ⟨by decide, by decide, by decide, by decide⟩

/-- C4 (amended): the chain table maps `eip155:1`, `eip155:8453` and
`eip155:84532` to mainnet, Base and Base Sepolia, any other network string
falling back to Base; the EIP-712 chain id is `Number.parseInt` of the part
after the first `:`, the resolved chain's own id being used exactly when
that parse yields `NaN` (suffix absent or without leading digits) — a
suffix with trailing garbage, such as `12x`, parses to its leading integer
instead of falling back.  On wholly-numeric or unparseable suffixes this
agrees with the specification's reading. -/
theorem chainResolution_amended (network : String) (fb : Int) :
    resolveChain "eip155:1" = mainnet ∧
    resolveChain "eip155:8453" = base ∧
    resolveChain "eip155:84532" = baseSepolia ∧
    (network ≠ "eip155:1" → network ≠ "eip155:8453" → network ≠ "eip155:84532" →
      resolveChain network = base) ∧
    ((networkSuffix network).data ≠ [] →
      (networkSuffix network).data.all Char.isDigit = true →
      resolveChainId network fb = ((digitsToNat (networkSuffix network).data : Nat) : Int)) ∧
    (jsParseInt10 (networkSuffix network) = none → resolveChainId network fb = fb) ∧
    ((networkSuffix network).data.all Char.isDigit = true ∨
        jsParseInt10 (networkSuffix network) = none →
      resolveChainId network fb = specResolveChainId network fb) := by
  refine ⟨by decide, by decide, by decide, ?_, ?_, ?_, ?_⟩
  · intro h1 h2 h3
    simp [resolveChain, CHAINS, h1, h2, h3]
  · intro h1 h2
    simp [resolveChainId, jsParseInt10_all_digits (networkSuffix network) h1 h2]
  · intro h
    simp [resolveChainId, h]
  · intro h
    rcases h with h | h
    · by_cases hemp : (networkSuffix network).data = []
      · have hs : networkSuffix network = "" := by
          have heta : networkSuffix network = String.mk (networkSuffix network).data := rfl
          rw [heta, hemp]
        simp [resolveChainId, specResolveChainId, hs,
          (by decide : jsParseInt10 "" = none)]
      · have hval := jsParseInt10_all_digits (networkSuffix network) hemp h
        have hne : networkSuffix network ≠ "" := fun he => hemp (by rw [he])
        simp [resolveChainId, hval, specResolveChainId, hne]
        rw [if_pos (List.all_eq_true.mp h)]
    · have hbool : (decide (networkSuffix network ≠ "") &&
          (networkSuffix network).data.all Char.isDigit) = false := by
        by_cases hne : networkSuffix network = ""
        · simp [hne]
        · cases hdig : (networkSuffix network).data.all Char.isDigit with
          | false => simp
          | true =>
            exfalso
            have hemp : (networkSuffix network).data ≠ [] := by
              intro he
              apply hne
              have heta : networkSuffix network = String.mk (networkSuffix network).data := rfl
              rw [heta, he]
            rw [jsParseInt10_all_digits (networkSuffix network) hemp hdig] at h
            exact Option.noConfusion h
      simp only [resolveChainId, h, specResolveChainId]
      simp only [hbool]
      simp

/-- Closed instance of the amended C4 theorem: the wholly-numeric suffix of
`eip155:84532` parses to 84532 and agrees with the specification's reading. -/
theorem chainResolution_amended_witness :
    ((networkSuffix "eip155:84532").data ≠ [] ∧
      (networkSuffix "eip155:84532").data.all Char.isDigit = true) ∧
    resolveChainId "eip155:84532" (8453 : Int) =
      ((digitsToNat (networkSuffix "eip155:84532").data : Nat) : Int) ∧
    resolveChainId "eip155:84532" (8453 : Int) =
      specResolveChainId "eip155:84532" (8453 : Int) :=
  ⟨⟨by decide, by decide⟩,
    (chainResolution_amended "eip155:84532" 8453).2.2.2.2.1 (by decide) (by decide),
    (chainResolution_amended "eip155:84532" 8453).2.2.2.2.2.2 (Or.inl (by decide))⟩

/-- C9 fails as stated: `X402_PERMIT_CAP = " "` is not a positive decimal
integer, yet `readTrimmed` reduces the whitespace-only value to an absent
one, so loading silently succeeds with the default cap `"10000000"` and
registration proceeds to construct the signer. -/
theorem permitCap_whitespace_counterexample :
    loadX402Env
        [("X402_PRIVATE_KEY",
            "0x1111111111111111111111111111111111111111111111111111111111111111"),
          ("X402_PERMIT_CAP", " ")] =
      .ok { privateKey := "0x1111111111111111111111111111111111111111111111111111111111111111"
            routerUrl := "http://localhost:8080"
            network := "eip155:8453"
            permitCap := "10000000"
            paymentHeader := "PAYMENT-SIGNATURE"
            modelId := "kimi-k2.5"
            modelName := "Kimi K2.5" } ∧
    registerX402Provider
        [("X402_PRIVATE_KEY",
            "0x1111111111111111111111111111111111111111111111111111111111111111"),
          ("X402_PERMIT_CAP", " ")] =
      .ok { provider := { baseUrl := "http://localhost:8080/v1"
                          apiKey := "x402-placeholder"
                          api := "x402-openai-completions"
                          headers := none
                          modelId := "kimi-k2.5"
                          modelName := "Kimi K2.5" }
            fetchConfig := { permitCap := "10000000"
                             privateKey :=
                               "0x1111111111111111111111111111111111111111111111111111111111111111"
                             routerUrl := "http://localhost:8080" }
            signerConstructed := true
            streamPatchesFetch := true } :=
  ⟨by decide, by decide⟩

/-- C9 (amended): when the configured `X402_PERMIT_CAP` trims to a non-empty
string that is not a positive decimal integer (`"-1"`, `"0"`, any non-digit
string), loading fails with the cap-specific error and registration aborts
before the permit signer is constructed; a value trimming to the empty
string instead falls back silently to the default cap. -/
theorem permitCap_invalid_rejected (env : EnvSource) (cap k : String)
    (hk : readTrimmed env "X402_PRIVATE_KEY" = some k)
    (hk2 : matchesPrivateKeyEnv k = true)
    (hr : readTrimmed env "X402_ROUTER_URL" = none)
    (hc : readTrimmed env "X402_PERMIT_CAP" = some cap)
    (hv : matchesPositiveInteger cap = false) :
    loadX402Env env = .error "X402_PERMIT_CAP must be a positive integer string" ∧
    registerX402Provider env = .error "X402_PERMIT_CAP must be a positive integer string" := by
  have hload : loadX402Env env = .error "X402_PERMIT_CAP must be a positive integer string" := by
    simp [loadX402Env, hk, hr, hc, normalizePrivateKey, hk2,
      (by decide : normalizeRouterUrl DEFAULT_ROUTER_URL = .ok "http://localhost:8080"),
      normalizePermitCap, hv]
  exact ⟨hload, by simp [registerX402Provider, hload]⟩

/-- Closed instance of the amended C9 theorem at `X402_PERMIT_CAP = "-1"`:
loading fails with the cap-specific error and registration aborts. -/
theorem permitCap_invalid_rejected_witness :
    readTrimmed
        [("X402_PRIVATE_KEY",
            "0x1111111111111111111111111111111111111111111111111111111111111111"),
          ("X402_PERMIT_CAP", "-1")] "X402_PERMIT_CAP" = some "-1" ∧
    matchesPositiveInteger "-1" = false ∧
    loadX402Env
        [("X402_PRIVATE_KEY",
            "0x1111111111111111111111111111111111111111111111111111111111111111"),
          ("X402_PERMIT_CAP", "-1")] =
      .error "X402_PERMIT_CAP must be a positive integer string" ∧
    registerX402Provider
        [("X402_PRIVATE_KEY",
            "0x1111111111111111111111111111111111111111111111111111111111111111"),
          ("X402_PERMIT_CAP", "-1")] =
      .error "X402_PERMIT_CAP must be a positive integer string" := by
  have h := permitCap_invalid_rejected
    [("X402_PRIVATE_KEY",
        "0x1111111111111111111111111111111111111111111111111111111111111111"),
      ("X402_PERMIT_CAP", "-1")]
    "-1" "0x1111111111111111111111111111111111111111111111111111111111111111"
    (by decide) (by decide) (by decide) (by decide) (by decide)
  exact ⟨by decide, by decide, h.1, h.2⟩

theorem splitAtChar_append (pre post : List Char) (sep : Char) (h : ¬ sep ∈ pre) :
    splitAtChar (pre ++ sep :: post) sep = some (pre, post) := by
  induction pre with
  | nil => simp [splitAtChar]
  | cons c cs ih =>
    have hc : ¬ c = sep := fun he => h (he ▸ List.mem_cons_self c cs)
    have h2 : ¬ sep ∈ cs := fun hm => h (List.mem_cons_of_mem c hm)
    simp [splitAtChar, hc, ih h2]

theorem splitAtChar_none (cs : List Char) (sep : Char) (h : ¬ sep ∈ cs) :
    splitAtChar cs sep = none := by
  induction cs with
  | nil => rfl
  | cons c cs2 ih =>
    have hc : ¬ c = sep := fun he => h (he ▸ List.mem_cons_self c cs2)
    have h2 : ¬ sep ∈ cs2 := fun hm => h (List.mem_cons_of_mem c hm)
    simp [splitAtChar, hc, ih h2]

theorem takeUntilDelim_split (delims : List Char) (pre post : List Char)
    (hpre : ∀ c ∈ pre, delims.contains c = false)
    (hpost : post = [] ∨ ∃ d rest, post = d :: rest ∧ delims.contains d = true) :
    takeUntilDelim delims (pre ++ post) = (pre, post) := by
  induction pre with
  | nil =>
    rcases hpost with h | ⟨d, rest, hdr, hd⟩
    · subst h
      rfl
    · subst hdr
      rw [List.nil_append]
      unfold takeUntilDelim
      simp only [hd, if_true]
  | cons c cs ih =>
    have hc := hpre c (List.mem_cons_self c cs)
    have h2 : ∀ x ∈ cs, delims.contains x = false :=
      fun x hx => hpre x (List.mem_cons_of_mem c hx)
    rw [List.cons_append]
    unfold takeUntilDelim
    simp only [hc, Bool.false_eq_true, if_false, ih h2]

theorem contains_eq_false_of_ne (l : List Char) (a : Char) (h : ∀ c ∈ l, c ≠ a) :
    l.contains a = false := by
  cases hc : l.contains a with
  | false => rfl
  | true =>
    exfalso
    rw [List.contains_eq_any_beq] at hc
    rcases List.any_eq_true.mp hc with ⟨x, hx, hbeq⟩
    exact h x hx (beq_iff_eq.mp hbeq).symm

theorem toLower_eq_self_of_lowerHostChar (c : Char) (h : lowerHostChar c = true) :
    c.toLower = c := by
  simp only [lowerHostChar, Bool.or_eq_true, decide_eq_true_eq] at h
  rcases h with ((hd | hl) | hdot) | hdash
  · simp [Char.isDigit] at hd
    have h1 : (48 : Nat) ≤ c.val.toNat := UInt32.le_toNat_of_le (by decide) hd.1
    have h2 : c.val.toNat ≤ (57 : Nat) := UInt32.toNat_le_of_le (by decide) hd.2
    unfold Char.toLower
    rw [if_neg]
    simp [Char.toNat]
    omega
  · simp [Char.isLower] at hl
    have h1 : (97 : Nat) ≤ c.val.toNat := UInt32.le_toNat_of_le (by decide) hl.1
    unfold Char.toLower
    rw [if_neg]
    simp [Char.toNat]
    omega
  · subst hdot
    decide
  · subst hdash
    decide

theorem lowerHostChar_facts (c : Char) (h : lowerHostChar c = true) :
    hostChar c = true ∧ c ≠ ':' ∧ c ≠ '/' ∧ c ≠ '?' ∧ c ≠ '#' ∧ c ≠ '@' ∧
      c ≠ '[' ∧ c ≠ ']' := by
  refine ⟨?_, ?_, ?_, ?_, ?_, ?_, ?_, ?_⟩
  · simp only [lowerHostChar, Bool.or_eq_true, decide_eq_true_eq] at h
    rcases h with ((hd | hl) | hdot) | hdash
    · simp [hostChar, hd]
    · simp [hostChar, Char.isAlpha, hl]
    · subst hdot
      decide
    · subst hdash
      decide
  all_goals exact fun he => by subst he; exact absurd h (by decide)

theorem map_toLower_eq_self (l : List Char) (h : ∀ c ∈ l, lowerHostChar c = true) :
    l.map Char.toLower = l := by
  induction l with
  | nil => rfl
  | cons c cs ih =>
    rw [List.map_cons, toLower_eq_self_of_lowerHostChar c (h c (List.mem_cons_self c cs)),
      ih fun x hx => h x (List.mem_cons_of_mem c hx)]

theorem lowerHostChar_not_delim (c : Char) (h : lowerHostChar c = true) :
    (['/', '?', '#'] : List Char).contains c = false := by
  obtain ⟨_, _, h2, h3, h4, _, _, _⟩ := lowerHostChar_facts c h
  have b1 : (c == '/') = false := beq_eq_false_iff_ne.mpr h2
  have b2 : (c == '?') = false := beq_eq_false_iff_ne.mpr h3
  have b3 : (c == '#') = false := beq_eq_false_iff_ne.mpr h4
  simp [List.contains, List.elem, b1, b2, b3]

theorem suffixOk_split (suffix : String) (hsuf : suffixOk suffix = true) :
    suffix.data = [] ∨ ∃ d rest, suffix.data = d :: rest ∧
      (['/', '?', '#'] : List Char).contains d = true := by
  cases hd : suffix.data with
  | nil => exact Or.inl rfl
  | cons d rest =>
    right
    refine ⟨d, rest, rfl, ?_⟩
    simp only [suffixOk, hd] at hsuf
    simp only [Bool.or_eq_true, decide_eq_true_eq] at hsuf
    rcases hsuf with (h | h) | h <;> subst h <;> decide

theorem jsURLOrigin_strip (scheme host suffix : String)
    (hs : scheme = "http" ∨ scheme = "https")
    (hh : host.data ≠ [])
    (hhc : host.data.all lowerHostChar = true)
    (hsuf : suffixOk suffix = true) :
    jsURLOrigin (scheme ++ "://" ++ host ++ suffix) = some (scheme ++ "://" ++ host) := by
  have hmem : ∀ c ∈ host.data, lowerHostChar c = true :=
    fun c hc => List.all_eq_true.mp hhc c hc
  have hnotdelim : ∀ c ∈ host.data, (['/', '?', '#'] : List Char).contains c = false :=
    fun c hc => lowerHostChar_not_delim c (hmem c hc)
  have hta : takeUntilDelim ['/', '?', '#'] (host.data ++ suffix.data) =
      (host.data, suffix.data) :=
    takeUntilDelim_split _ _ _ hnotdelim (suffixOk_split suffix hsuf)
  have hat : host.data.contains '@' = false :=
    contains_eq_false_of_ne _ _ fun c hc => (lowerHostChar_facts c (hmem c hc)).2.2.2.2.2.1
  have hlb : host.data.contains '[' = false :=
    contains_eq_false_of_ne _ _ fun c hc => (lowerHostChar_facts c (hmem c hc)).2.2.2.2.2.2.1
  have hrb : host.data.contains ']' = false :=
    contains_eq_false_of_ne _ _ fun c hc => (lowerHostChar_facts c (hmem c hc)).2.2.2.2.2.2.2
  have hnocolon : ¬ ':' ∈ host.data :=
    fun hm => (lowerHostChar_facts ':' (hmem ':' hm)).2.1 rfl
  have hsplit2 : splitAtChar host.data ':' = none := splitAtChar_none _ _ hnocolon
  have hhostchar : host.data.all hostChar = true :=
    List.all_eq_true.mpr fun c hc => (lowerHostChar_facts c (hmem c hc)).1
  have hmap : host.data.map Char.toLower = host.data := map_toLower_eq_self _ hmem
  rcases hs with h | h <;> subst h
  · have hdata : ("http" ++ "://" ++ host ++ suffix).data =
        "http".data ++ (':' :: '/' :: '/' :: (host.data ++ suffix.data)) := by
      simp [String.data_append]
    unfold jsURLOrigin
    rw [hdata, splitAtChar_append "http".data _ ':' (by decide)]
    simp only [hta, hat, hlb, hrb, hsplit2, hhostchar, hmap, hh]
    simp [String.data_append, parsePort, hh]
  · have hdata : ("https" ++ "://" ++ host ++ suffix).data =
        "https".data ++ (':' :: '/' :: '/' :: (host.data ++ suffix.data)) := by
      simp [String.data_append]
    unfold jsURLOrigin
    rw [hdata, splitAtChar_append "https".data _ ':' (by decide)]
    simp only [hta, hat, hlb, hrb, hsplit2, hhostchar, hmap, hh]
    simp [String.data_append, parsePort, hh]

theorem parsePort_digits (scheme : String) (p : List Char) (h1 : p ≠ [])
    (h2 : p.all Char.isDigit = true) (h3 : digitsToNat p ≤ 65535)
    (h4 : digitsToNat p ≠ defaultPort scheme) :
    parsePort scheme (some p) = some (some (digitsToNat p)) := by
  cases p with
  | nil => exact absurd rfl h1
  | cons d ds =>
    unfold parsePort
    simp [h2, h3, h4]

theorem jsURLOrigin_strip_port (scheme host port suffix : String)
    (hs : scheme = "http" ∨ scheme = "https")
    (hh : host.data ≠ [])
    (hhc : host.data.all lowerHostChar = true)
    (hp1 : port.data ≠ [])
    (hp2 : port.data.all Char.isDigit = true)
    (hp3 : digitsToNat port.data ≤ 65535)
    (hp4 : digitsToNat port.data ≠ defaultPort scheme)
    (hsuf : suffixOk suffix = true) :
    jsURLOrigin (scheme ++ "://" ++ host ++ ":" ++ port ++ suffix) =
      some (scheme ++ "://" ++ host ++ ":" ++ toString (digitsToNat port.data)) := by
  have hmem : ∀ c ∈ host.data, lowerHostChar c = true :=
    fun c hc => List.all_eq_true.mp hhc c hc
  have hmemp : ∀ c ∈ port.data, lowerHostChar c = true := by
    intro c hc
    have hd := List.all_eq_true.mp hp2 c hc
    simp [lowerHostChar, hd]
  have hpreND : ∀ c ∈ host.data ++ ':' :: port.data,
      (['/', '?', '#'] : List Char).contains c = false := by
    intro c hc
    rcases List.mem_append.mp hc with hc | hc
    · exact lowerHostChar_not_delim c (hmem c hc)
    · rcases List.mem_cons.mp hc with hc | hc
      · subst hc
        decide
      · exact lowerHostChar_not_delim c (hmemp c hc)
  have hta : takeUntilDelim ['/', '?', '#'] ((host.data ++ ':' :: port.data) ++ suffix.data) =
      (host.data ++ ':' :: port.data, suffix.data) :=
    takeUntilDelim_split _ _ _ hpreND (suffixOk_split suffix hsuf)
  have hauth : ∀ a : Char, a = '@' ∨ a = '[' ∨ a = ']' →
      (host.data ++ ':' :: port.data).contains a = false := by
    intro a ha
    apply contains_eq_false_of_ne
    intro c hc
    rcases List.mem_append.mp hc with hc | hc
    · obtain ⟨_, _, _, _, _, q1, q2, q3⟩ := lowerHostChar_facts c (hmem c hc)
      rcases ha with h | h | h <;> subst h <;> assumption
    · rcases List.mem_cons.mp hc with hc | hc
      · subst hc
        rcases ha with h | h | h <;> subst h <;> decide
      · obtain ⟨_, _, _, _, _, q1, q2, q3⟩ := lowerHostChar_facts c (hmemp c hc)
        rcases ha with h | h | h <;> subst h <;> assumption
  have hat := hauth '@' (Or.inl rfl)
  have hlb := hauth '[' (Or.inr (Or.inl rfl))
  have hrb := hauth ']' (Or.inr (Or.inr rfl))
  have hnocolon : ¬ ':' ∈ host.data :=
    fun hm => (lowerHostChar_facts ':' (hmem ':' hm)).2.1 rfl
  have hsplit2 : splitAtChar (host.data ++ ':' :: port.data) ':' = some (host.data, port.data) :=
    splitAtChar_append _ _ _ hnocolon
  have hhostchar : host.data.all hostChar = true :=
    List.all_eq_true.mpr fun c hc => (lowerHostChar_facts c (hmem c hc)).1
  have hmap : host.data.map Char.toLower = host.data := map_toLower_eq_self _ hmem
  have hpp := parsePort_digits scheme port.data hp1 hp2 hp3 hp4
  rcases hs with h | h <;> subst h
  · have hdata : ("http" ++ "://" ++ host ++ ":" ++ port ++ suffix).data =
        "http".data ++ (':' :: '/' :: '/' :: ((host.data ++ ':' :: port.data) ++ suffix.data)) := by
      simp [String.data_append]
    unfold jsURLOrigin
    rw [hdata, splitAtChar_append "http".data _ ':' (by decide)]
    simp only [hta, hat, hlb, hrb, hsplit2, hhostchar, hmap, hh]
    simp [String.data_append, hh]
    rw [hpp]
    simp [← String.append_assoc]
  · have hdata : ("https" ++ "://" ++ host ++ ":" ++ port ++ suffix).data =
        "https".data ++ (':' :: '/' :: '/' :: ((host.data ++ ':' :: port.data) ++ suffix.data)) := by
      simp [String.data_append]
    unfold jsURLOrigin
    rw [hdata, splitAtChar_append "https".data _ ':' (by decide)]
    simp only [hta, hat, hlb, hrb, hsplit2, hhostchar, hmap, hh]
    simp [String.data_append, hh]
    rw [hpp]
    simp [← String.append_assoc]

/-- C10: configuration loading normalizes the router URL to its URL origin:
any path, query, fragment or trailing slash is silently discarded, so the
normalized value is built from scheme://host[:port] only (the config
endpoint and the registered baseUrl are then derived from that origin), and
a value that does not parse as a URL fails with the router-URL-specific
error. -/
theorem routerUrl_origin_normalization :
    (∀ scheme host suffix : String,
      (scheme = "http" ∨ scheme = "https") → host.data ≠ [] →
      host.data.all lowerHostChar = true → suffixOk suffix = true →
      normalizeRouterUrl (scheme ++ "://" ++ host ++ suffix) =
        .ok (scheme ++ "://" ++ host)) ∧
    (∀ scheme host port suffix : String,
      (scheme = "http" ∨ scheme = "https") → host.data ≠ [] →
      host.data.all lowerHostChar = true → port.data ≠ [] →
      port.data.all Char.isDigit = true → digitsToNat port.data ≤ 65535 →
      digitsToNat port.data ≠ defaultPort scheme → suffixOk suffix = true →
      normalizeRouterUrl (scheme ++ "://" ++ host ++ ":" ++ port ++ suffix) =
        .ok (scheme ++ "://" ++ host ++ ":" ++ toString (digitsToNat port.data))) ∧
    (∀ s : String, jsURLOrigin s = none →
      normalizeRouterUrl s = .error "X402_ROUTER_URL must be a valid URL") := by
  refine ⟨?_, ?_, ?_⟩
  · intro scheme host suffix hs hh hhc hsuf
    simp [normalizeRouterUrl, jsURLOrigin_strip scheme host suffix hs hh hhc hsuf]
  · intro scheme host port suffix hs hh hhc hp1 hp2 hp3 hp4 hsuf
    simp [normalizeRouterUrl,
      jsURLOrigin_strip_port scheme host port suffix hs hh hhc hp1 hp2 hp3 hp4 hsuf]
  · intro s h
    simp [normalizeRouterUrl, h]

/-- Closed instance of the C10 theorem: a default-router-style URL with
port, path, query and fragment normalizes to the bare origin. -/
theorem routerUrl_origin_normalization_witness :
    (("http" : String) = "http" ∨ ("http" : String) = "https") ∧
    ("localhost" : String).data ≠ [] ∧
    ("localhost" : String).data.all lowerHostChar = true ∧
    ("8080" : String).data ≠ [] ∧
    ("8080" : String).data.all Char.isDigit = true ∧
    digitsToNat ("8080" : String).data ≤ 65535 ∧
    digitsToNat ("8080" : String).data ≠ defaultPort "http" ∧
    suffixOk "/v1/config?x=1#frag" = true ∧
    normalizeRouterUrl
        ("http" ++ "://" ++ "localhost" ++ ":" ++ "8080" ++ "/v1/config?x=1#frag") =
      .ok ("http" ++ "://" ++ "localhost" ++ ":" ++
        toString (digitsToNat ("8080" : String).data)) :=
  ⟨Or.inl rfl, by decide, by decide, by decide, by decide, by decide, by decide, by decide,
    routerUrl_origin_normalization.2.1 "http" "localhost" "8080" "/v1/config?x=1#frag"
      (Or.inl rfl) (by decide) (by decide) (by decide) (by decide) (by decide) (by decide)
      (by decide)⟩

/-- C1 fails as stated: with a static payment signature configured,
registration does place the header at the provider level (so requests carry
it up front), but `createX402Fetch` receives no static-signature option and
`streamX402` still acquires the fetch patcher — so when the server answers
402 the wrapper still resolves the router config and acquires a permit: the
retry path is not skipped. -/
theorem staticSignature_counterexample :
    registerX402Provider
        [("X402_PRIVATE_KEY",
            "0x1111111111111111111111111111111111111111111111111111111111111111"),
          ("X402_PAYMENT_SIGNATURE", "static-sig")] =
      .ok { provider := { baseUrl := "http://localhost:8080/v1"
                          apiKey := "x402-placeholder"
                          api := "x402-openai-completions"
                          headers := some [("PAYMENT-SIGNATURE", "static-sig")]
                          modelId := "kimi-k2.5"
                          modelName := "Kimi K2.5" }
            fetchConfig := { permitCap := "10000000"
                             privateKey :=
                               "0x1111111111111111111111111111111111111111111111111111111111111111"
                             routerUrl := "http://localhost:8080" }
            signerConstructed := true
            streamPatchesFetch := true } ∧
    (x402FetchModel
        { permitCap := "10000000"
          privateKey := "0x1111111111111111111111111111111111111111111111111111111111111111"
          routerUrl := "http://localhost:8080" }
        (routerFallback ⟨"eip155:8453", "PAYMENT-SIGNATURE"⟩)
        (.ok ⟨"permitsig", 4600, "10000000", "7", "eip155:8453", "0xa", "0xb"⟩)
        ⟨"http://localhost:8080/v1/chat/completions", [("PAYMENT-SIGNATURE", "static-sig")]⟩
        (fun _ => ⟨402, "payment required"⟩)).events.contains .resolveConfig = true :=
  ⟨by decide, by decide⟩

/-- C1 (amended): a configured non-empty static payment signature becomes a
provider-level header (attached to every request up front), but static mode
does not disable the signed-permit machinery: the wrapper receives no
static-signature option, `streamSimple` still patches the global fetch, and
a 401/402 first response still triggers config resolution, permit
acquisition and exactly one retry. -/
theorem staticSignature_amended (env : EnvSource) (sig : String) (cfg : X402EnvConfig)
    (hs : env.lookup "X402_PAYMENT_SIGNATURE" = some sig)
    (hlen : 0 < (jsTrim sig).length)
    (hok : loadX402Env env = .ok cfg) :
    registerX402Provider env =
      .ok { provider := { baseUrl := withV1Path cfg.routerUrl
                          apiKey := "x402-placeholder"
                          api := "x402-openai-completions"
                          headers := some [(cfg.paymentHeader, jsTrim sig)]
                          modelId := cfg.modelId
                          modelName := cfg.modelName }
            fetchConfig := { permitCap := cfg.permitCap
                             privateKey := cfg.privateKey
                             routerUrl := cfg.routerUrl }
            signerConstructed := true
            streamPatchesFetch := true } ∧
    (∀ (fc : X402FetchConfig) (config : RouterConfig) (p : CachedPermit) (req : Request)
        (server : Nat → Response), isPaymentRequired (server 0).status = true →
      (x402FetchModel fc config (.ok p) req server).events.contains .resolveConfig = true ∧
      (x402FetchModel fc config (.ok p) req server).events.contains .acquirePermit = true ∧
      networkCalls (x402FetchModel fc config (.ok p) req server) = 2) := by
  constructor
  · simp [registerX402Provider, hok, hs, hlen]
  · intro fc config p req server h
    refine ⟨?_, ?_, ?_⟩
    · simp [x402FetchModel, h, List.contains, List.elem]
    · simp [x402FetchModel, h, List.contains, List.elem]
    · simp [x402FetchModel, h, networkCalls, countNetworkCalls]

/-- Closed instance of the amended C1 theorem at a concrete environment with
a static signature and an always-402 server. -/
theorem staticSignature_amended_witness :
    ([("X402_PRIVATE_KEY",
          "0x1111111111111111111111111111111111111111111111111111111111111111"),
        ("X402_PAYMENT_SIGNATURE", "static-sig")] : EnvSource).lookup
        "X402_PAYMENT_SIGNATURE" = some "static-sig" ∧
    0 < (jsTrim "static-sig").length ∧
    registerX402Provider
        [("X402_PRIVATE_KEY",
            "0x1111111111111111111111111111111111111111111111111111111111111111"),
          ("X402_PAYMENT_SIGNATURE", "static-sig")] =
      .ok { provider := { baseUrl := withV1Path "http://localhost:8080"
                          apiKey := "x402-placeholder"
                          api := "x402-openai-completions"
                          headers := some [("PAYMENT-SIGNATURE", jsTrim "static-sig")]
                          modelId := "kimi-k2.5"
                          modelName := "Kimi K2.5" }
            fetchConfig := { permitCap := "10000000"
                             privateKey :=
                               "0x1111111111111111111111111111111111111111111111111111111111111111"
                             routerUrl := "http://localhost:8080" }
            signerConstructed := true
            streamPatchesFetch := true } := by
  have h := staticSignature_amended
    [("X402_PRIVATE_KEY",
        "0x1111111111111111111111111111111111111111111111111111111111111111"),
      ("X402_PAYMENT_SIGNATURE", "static-sig")]
    "static-sig"
    { privateKey := "0x1111111111111111111111111111111111111111111111111111111111111111"
      routerUrl := "http://localhost:8080"
      network := "eip155:8453"
      permitCap := "10000000"
      paymentHeader := "PAYMENT-SIGNATURE"
      modelId := "kimi-k2.5"
      modelName := "Kimi K2.5" }
    (by decide) (by decide) (by decide)
  exact ⟨by decide, by decide, h.1⟩

end X402
